import Mathlib

/-!
Shallow embedding of src/library/ec2_elasticsearch.py (the body of
`main` after argument parsing): assembly of the desired configuration,
the reconcile comparison against the current domain status, and the
create / update / fail branches.

Python dicts whose keys are inserted conditionally are modelled as
structures with `Option` fields (`none` = key absent).  Parameters that
the Ansible argument spec marks optional are themselves `Option` values,
so a conditionally inserted key holding an optional parameter has type
`Option (Option _)` (outer: key present; inner: Python None value).
Provider-returned blocks additionally carry the keys outside the desired
schema in an `extra` association list, so Python whole-dict equality
between a returned block and a desired block is equality of the shared
schema plus `extra = []`.  Unhandled Python KeyError, `module.fail_json`
and `module.exit_json` are the three terminal outcomes; the provider API
calls issued before termination are recorded in order.
-/

namespace ES

/-- One statement of the IAM access-policy document.  Only the Resource
key is touched by the module; the remaining keys (Effect, Principal,
Action, ...) are opaque payload collected in `rest`. -/
structure Stmt where
  resource : Option String
  rest : String
deriving DecidableEq

/-- The access-policy document (a JSON object).  The top-level Statement
key may be absent (`none`); other top-level keys (Version, ...) are the
opaque `rest`.  The serialized JSON form of a policy is modelled by the
policy itself, since json.loads and json.dumps round-trip. -/
structure Policy where
  statement : Option (List Stmt)
  rest : String
deriving DecidableEq

/-- The module parameters, after the AnsibleModule argument-spec layer
(types applied, defaults filled, required_if enforced).  Optional
parameters with no default are `Option` values.  List parameters are
plain lists, with the empty list standing for both an absent and an
empty Python value (both are falsy where the code tests them).
`access_policies_serializable` and `access_policies_dump_error` model
whether json.dumps succeeds on the raw access_policies dict and the
str(e) text when it does not. -/
structure Params where
  name : String
  instance_type : String
  instance_count : Int
  dedicated_master : Bool
  zone_awareness : Bool
  availability_zone_count : Option Int
  dedicated_master_instance_type : Option String
  dedicated_master_instance_count : Option Int
  ebs : Bool
  volume_type : String
  volume_size : Int
  iops : Option Int
  warm_enabled : Bool
  warm_type : Option String
  warm_count : Option Int
  cold_storage_enabled : Bool
  access_policies : Policy
  access_policies_serializable : Bool
  access_policies_dump_error : String
  vpc_subnets : List String
  vpc_security_groups : List String
  snapshot_hour : Int
  engine_type : String
  elasticsearch_version : String
  encryption_at_rest_enabled : Bool
  encryption_at_rest_kms_key_id : Option String
  cognito_enabled : Bool
  cognito_user_pool_id : Option String
  cognito_identity_pool_id : Option String
  cognito_role_arn : Option String
deriving DecidableEq

/-- The ElasticsearchClusterConfig dict shape.  ZoneAwarenessConfig is
collapsed to its only key, AvailabilityZoneCount; ColdStorageOptions to
its only key, Enabled. -/
structure ClusterConfig where
  instanceType : String
  instanceCount : Int
  dedicatedMasterEnabled : Bool
  zoneAwarenessEnabled : Bool
  warmEnabled : Bool
  coldStorageEnabled : Bool
  zoneAwarenessConfig : Option (Option Int)
  warmType : Option (Option String)
  warmCount : Option (Option Int)
  dedicatedMasterType : Option (Option String)
  dedicatedMasterCount : Option (Option Int)
deriving DecidableEq

/-- The EBSOptions dict shape. -/
structure EBSOptions where
  ebsEnabled : Bool
  volumeType : Option String
  volumeSize : Option Int
  iops : Option Int
deriving DecidableEq

/-- The EncryptionAtRestOptions dict shape. -/
structure EncryptionAtRestOptions where
  enabled : Bool
  kmsKeyId : Option (Option String)
deriving DecidableEq

/-- The CognitoOptions dict shape. -/
structure CognitoOptions where
  enabled : Bool
  userPoolId : Option (Option String)
  identityPoolId : Option (Option String)
  roleArn : Option (Option String)
deriving DecidableEq

/-- The desired VPCOptions dict: both keys are inserted only when the
corresponding parameter list is non-empty. -/
structure VpcOptions where
  subnetIds : Option (List String)
  securityGroupIds : Option (List String)
deriving DecidableEq

/-- The SnapshotOptions dict shape. -/
structure SnapshotOptions where
  automatedSnapshotStartHour : Int
deriving DecidableEq

/-- A provider-returned dict block: the fields of the desired schema in
`base`, plus any keys outside that schema in `extra` (key names in
`extra` are outside the schema, so Python dict equality with a desired
block holds iff `base` agrees and `extra` is empty). -/
structure WithExtra (α : Type) where
  base : α
  extra : List (String × String)
deriving DecidableEq

/-- The VPCOptions block of a returned DomainStatus: the code reads its
SubnetIds and SecurityGroupIds keys, which the provider always returns
when the block is present. -/
structure VPCStatus where
  subnetIds : List String
  securityGroupIds : List String
deriving DecidableEq

/-- The DomainStatus returned by describe_elasticsearch_domain, limited
to the keys the module reads.  AccessPolicies is the parsed form of the
returned JSON string (json.loads). -/
structure DomainStatus where
  arn : String
  elasticsearchClusterConfig : WithExtra ClusterConfig
  ebsOptions : WithExtra EBSOptions
  cognitoOptions : WithExtra CognitoOptions
  vpcOptions : Option VPCStatus
  snapshotOptions : WithExtra SnapshotOptions
  accessPolicies : Policy
deriving DecidableEq

/-- Result of the describe_elasticsearch_domain call: the domain status,
or a botocore ClientError carrying an error code and message. -/
inductive ReadResult where
  | ok (status : DomainStatus)
  | err (code : String) (message : String)
deriving DecidableEq

/-- The keyword arguments of update_elasticsearch_domain_config.  The
VPCOptions key is inserted only when the guard on the desired VPC dict
passes.  There is no encryption field: the update call never carries
encryption-at-rest options. -/
structure UpdateArgs where
  domainName : String
  elasticsearchClusterConfig : ClusterConfig
  ebsOptions : EBSOptions
  snapshotOptions : SnapshotOptions
  accessPolicies : Policy
  cognitoOptions : CognitoOptions
  vpcOptions : Option VpcOptions
deriving DecidableEq

/-- The keyword arguments of create_elasticsearch_domain. -/
structure CreateArgs where
  domainName : String
  engineVersion : String
  encryptionAtRestOptions : EncryptionAtRestOptions
  elasticsearchClusterConfig : ClusterConfig
  ebsOptions : EBSOptions
  snapshotOptions : SnapshotOptions
  accessPolicies : Policy
  cognitoOptions : CognitoOptions
  vpcOptions : Option VpcOptions
deriving DecidableEq

/-- A provider API call issued by the module, in issue order. -/
inductive ApiCall where
  | describe (domainName : String)
  | update (args : UpdateArgs)
  | create (args : CreateArgs)
deriving DecidableEq

/-- Terminal outcome of one invocation: exit_json with the changed flag,
fail_json with a message, or an unhandled Python KeyError naming the
missing key. -/
inductive Outcome where
  | exited (changed : Bool)
  | failed (msg : String)
  | keyError (key : String)
deriving DecidableEq

/-- Result of one invocation: the terminal outcome and the provider API
calls issued before it, in order. -/
structure RunResult where
  outcome : Outcome
  calls : List ApiCall
deriving DecidableEq

/-- The cluster_config dict assembled from the parameters. -/
def cluster_config (p : Params) : ClusterConfig :=
  { instanceType := p.instance_type
    instanceCount := p.instance_count
    dedicatedMasterEnabled := p.dedicated_master
    zoneAwarenessEnabled := p.zone_awareness
    warmEnabled := p.warm_enabled
    coldStorageEnabled := p.cold_storage_enabled
    zoneAwarenessConfig := if p.zone_awareness then some p.availability_zone_count else none
    warmType := if p.warm_enabled then some p.warm_type else none
    warmCount := if p.warm_enabled then some p.warm_count else none
    dedicatedMasterType := if p.dedicated_master then some p.dedicated_master_instance_type else none
    dedicatedMasterCount := if p.dedicated_master then some p.dedicated_master_instance_count else none }

/-- The ebs_options dict: VolumeType and VolumeSize inserted when EBS is
enabled, Iops when the iops parameter is not None. -/
def ebs_options (p : Params) : EBSOptions :=
  { ebsEnabled := p.ebs
    volumeType := if p.ebs then some p.volume_type else none
    volumeSize := if p.ebs then some p.volume_size else none
    iops := p.iops }

/-- The encryption_at_rest_options dict: KmsKeyId inserted only when
encryption at rest is enabled. -/
def encryption_at_rest_options (p : Params) : EncryptionAtRestOptions :=
  { enabled := p.encryption_at_rest_enabled
    kmsKeyId := if p.encryption_at_rest_enabled then some p.encryption_at_rest_kms_key_id else none }

/-- The cognito_options dict: pool and role keys inserted only when
Cognito is enabled. -/
def cognito_options (p : Params) : CognitoOptions :=
  if p.cognito_enabled then
    { enabled := true
      userPoolId := some p.cognito_user_pool_id
      identityPoolId := some p.cognito_identity_pool_id
      roleArn := some p.cognito_role_arn }
  else
    { enabled := false, userPoolId := none, identityPoolId := none, roleArn := none }

/-- The vpc_options dict: each key inserted only when the corresponding
parameter list is truthy (non-empty).  The comma-splitting branch for a
string-valued parameter is already performed by the argument-spec layer
(type list, elements str), so lists arrive as lists. -/
def vpc_options (p : Params) : VpcOptions :=
  { subnetIds := if p.vpc_subnets = [] then none else some p.vpc_subnets
    securityGroupIds := if p.vpc_security_groups = [] then none else some p.vpc_security_groups }

/-- The snapshot_options dict. -/
def snapshot_options (p : Params) : SnapshotOptions :=
  { automatedSnapshotStartHour := p.snapshot_hour }

/-- The EngineVersion string built on the create path. -/
def engine_version (p : Params) : String :=
  p.engine_type ++ "_" ++ p.elasticsearch_version

/-- Python whole-dict inequality between a provider-returned block and a
desired block: unequal iff the shared schema differs or the returned
block has keys outside the schema. -/
def dictNe {α : Type} [DecidableEq α] (c : WithExtra α) (d : α) : Bool :=
  decide (¬ (c.base = d ∧ c.extra = []))

/-- Resource population performed on each policy statement before the
comparison: a statement without a Resource key receives the domain ARN
suffixed with /* (the ES APIs set this implicitly). -/
def normalizeStmt (arn : String) (s : Stmt) : Stmt :=
  match s.resource with
  | none => { s with resource := some (arn ++ "/*") }
  | some _ => s

/-- The policy dict after the normalization loop, given its statement
list.  Since json.dumps and json.loads round-trip in this model, this is
also the pdoc string sent on the update path. -/
def normalizedPolicy (arn : String) (pol : Policy) (stmts : List Stmt) : Policy :=
  { pol with statement := some (stmts.map (normalizeStmt arn)) }

/-- Result of a code fragment that may raise a Python KeyError. -/
inductive CmpResult where
  | ok (changed : Bool)
  | keyError (key : String)
deriving DecidableEq

/-- The VPC comparison performed when the returned status has a
VPCOptions block: each desired key is looked up (Python KeyError when it
was never inserted) and compared; the second lookup is reached even when
the first comparison already differs. -/
def vpcCompare (vs : VPCStatus) (d : VpcOptions) : CmpResult :=
  match d.subnetIds with
  | none => .keyError "SubnetIds"
  | some sids =>
    match d.securityGroupIds with
    | none => .keyError "SecurityGroupIds"
    | some gids => .ok (decide (vs.subnetIds ≠ sids) || decide (vs.securityGroupIds ≠ gids))

/-- The non-VPC comparisons of the update branch: whole-dict comparisons
of the cluster config, EBS, Cognito and snapshot blocks, and of the
parsed current policy against the normalized desired policy. -/
def blockDiffs (p : Params) (status : DomainStatus) (pol : Policy) : Bool :=
  dictNe status.elasticsearchClusterConfig (cluster_config p) ||
  dictNe status.ebsOptions (ebs_options p) ||
  dictNe status.cognitoOptions (cognito_options p) ||
  dictNe status.snapshotOptions (snapshot_options p) ||
  decide (status.accessPolicies ≠ pol)

/-- The changed computation of the update branch.  In the source the
comparisons run in the order cluster, EBS, Cognito, VPC, snapshot,
policy, each one a separate if statement that only sets the changed
flag; since the non-VPC comparisons have no effects, grouping them does
not change the resulting flag, and a KeyError in the VPC lookups aborts
the invocation whatever the flag already was. -/
def compareState (p : Params) (status : DomainStatus) (pol : Policy) : CmpResult :=
  match status.vpcOptions with
  | some vs =>
    match vpcCompare vs (vpc_options p) with
    | .keyError k => .keyError k
    | .ok c4 => .ok (blockDiffs p status pol || c4)
  | none => .ok (blockDiffs p status pol)

/-- The guard deciding whether the VPCOptions key is added to the write
keyword arguments: Python truthiness of the SubnetIds entry (KeyError
when absent, since the short-circuiting or evaluates it first), falling
back to the SecurityGroupIds entry. -/
def vpcGuard (d : VpcOptions) : CmpResult :=
  match d.subnetIds with
  | none => .keyError "SubnetIds"
  | some sids =>
    if sids ≠ [] then .ok true
    else
      match d.securityGroupIds with
      | none => .keyError "SecurityGroupIds"
      | some gids => .ok (decide (gids ≠ []))

/-- The keyword arguments of the update call: the full desired
configuration, the normalized policy document, and the VPC options when
the guard passed. -/
def update_keyword_args (p : Params) (pdoc : Policy) (includeVpc : Bool) : UpdateArgs :=
  { domainName := p.name
    elasticsearchClusterConfig := cluster_config p
    ebsOptions := ebs_options p
    snapshotOptions := snapshot_options p
    accessPolicies := pdoc
    cognitoOptions := cognito_options p
    vpcOptions := if includeVpc then some (vpc_options p) else none }

/-- The keyword arguments of the create call: the full desired
configuration plus engine version and encryption-at-rest options, and
the VPC options when the guard passed.  The policy document is the
original dump, since the normalization loop runs only on the update
branch. -/
def create_keyword_args (p : Params) (pdoc : Policy) (includeVpc : Bool) : CreateArgs :=
  { domainName := p.name
    engineVersion := engine_version p
    encryptionAtRestOptions := encryption_at_rest_options p
    elasticsearchClusterConfig := cluster_config p
    ebsOptions := ebs_options p
    snapshotOptions := snapshot_options p
    accessPolicies := pdoc
    cognitoOptions := cognito_options p
    vpcOptions := if includeVpc then some (vpc_options p) else none }

/-- The update branch, entered when the describe call succeeded: policy
normalization (KeyError when the policy has no Statement key), the
changed computation, and, when changed, the guarded update call; ends
with the final describe and exit_json. -/
def runExisting (p : Params) (status : DomainStatus) : RunResult :=
  match p.access_policies.statement with
  | none => { outcome := .keyError "Statement", calls := [.describe p.name] }
  | some stmts =>
    match compareState p status (normalizedPolicy status.arn p.access_policies stmts) with
    | .keyError k => { outcome := .keyError k, calls := [.describe p.name] }
    | .ok changed =>
      if changed then
        match vpcGuard (vpc_options p) with
        | .keyError k => { outcome := .keyError k, calls := [.describe p.name] }
        | .ok inc =>
          { outcome := .exited true
            calls := [.describe p.name,
                      .update (update_keyword_args p
                        (normalizedPolicy status.arn p.access_policies stmts) inc),
                      .describe p.name] }
      else
        { outcome := .exited false, calls := [.describe p.name, .describe p.name] }

/-- The except branch, entered when the describe call raised a
ClientError: the guarded create call on ResourceNotFoundException,
fail_json otherwise. -/
def runMissing (p : Params) (code message : String) : RunResult :=
  if code = "ResourceNotFoundException" then
    match vpcGuard (vpc_options p) with
    | .keyError k => { outcome := .keyError k, calls := [.describe p.name] }
    | .ok inc =>
      { outcome := .exited true
        calls := [.describe p.name, .create (create_keyword_args p p.access_policies inc), .describe p.name] }
  else
    { outcome := .failed ("Error: " ++ code ++ " " ++ message), calls := [.describe p.name] }

/-- One invocation of the module body: json.dumps of the access policy
(fail_json before any provider call when it is not serializable), the
describe call with the given result, then the update or create branch.
Both exit paths issue the final describe before exit_json. -/
def run (p : Params) (read : ReadResult) : RunResult :=
  if p.access_policies_serializable then
    match read with
    | .ok status => runExisting p status
    | .err code message => runMissing p code message
  else
    { outcome := .failed ("Failed to convert the policy into valid JSON: " ++ p.access_policies_dump_error)
      calls := [] }

/-- A parameter record identical to the given one except in the two
encryption-at-rest parameters. -/
def setEncryption (p : Params) (e : Bool) (k : Option String) : Params :=
  { p with encryption_at_rest_enabled := e, encryption_at_rest_kms_key_id := k }

/-- Concrete statement list of the test fixtures: one statement whose
Resource is already the domain ARN suffixed with /*. -/
def stmts0 : List Stmt :=
  [{ resource := some "arn:aws:es:eu-west-1:123:domain/es-test/*", rest := "allow-all" }]

/-- Concrete access policy of the test fixtures. -/
def pol0 : Policy :=
  { statement := some stmts0, rest := "2012-10-17" }

/-- Concrete parameter record used by the witnesses: EBS storage with a
10 GiB gp2 volume, one subnet and one security group, everything else
minimal. -/
def p0 : Params :=
  { name := "es-test"
    instance_type := "m3.medium.elasticsearch"
    instance_count := 2
    dedicated_master := false
    zone_awareness := false
    availability_zone_count := none
    dedicated_master_instance_type := none
    dedicated_master_instance_count := none
    ebs := true
    volume_type := "gp2"
    volume_size := 10
    iops := none
    warm_enabled := false
    warm_type := none
    warm_count := none
    cold_storage_enabled := false
    access_policies := pol0
    access_policies_serializable := true
    access_policies_dump_error := ""
    vpc_subnets := ["subnet-1"]
    vpc_security_groups := ["sg-1"]
    snapshot_hour := 0
    engine_type := "ElasticSearch"
    elasticsearch_version := "2.3"
    encryption_at_rest_enabled := false
    encryption_at_rest_kms_key_id := none
    cognito_enabled := false
    cognito_user_pool_id := none
    cognito_identity_pool_id := none
    cognito_role_arn := none }

/-- ARN of the fixture domain. -/
def arn0 : String := "arn:aws:es:eu-west-1:123:domain/es-test"

/-- A returned domain status exactly matching the desired configuration
of p0, with a VPCOptions block. -/
def s0 : DomainStatus :=
  { arn := arn0
    elasticsearchClusterConfig := ⟨cluster_config p0, []⟩
    ebsOptions := ⟨ebs_options p0, []⟩
    cognitoOptions := ⟨cognito_options p0, []⟩
    vpcOptions := some ⟨["subnet-1"], ["sg-1"]⟩
    snapshotOptions := ⟨snapshot_options p0, []⟩
    accessPolicies := pol0 }

/-- The parameters p0 with the VPC lists absent (empty). -/
def pNoVpc : Params := { p0 with vpc_subnets := [], vpc_security_groups := [] }

/-- A returned status that differs from the desired configuration in one
compared field, the EBS volume size (20 instead of 10), and has no
VPCOptions block. -/
def sDiff : DomainStatus :=
  { arn := arn0
    elasticsearchClusterConfig := ⟨cluster_config p0, []⟩
    ebsOptions := ⟨{ ebs_options p0 with volumeSize := some 20 }, []⟩
    cognitoOptions := ⟨cognito_options p0, []⟩
    vpcOptions := none
    snapshotOptions := ⟨snapshot_options p0, []⟩
    accessPolicies := pol0 }

/-- The differing status sDiff with a VPCOptions block matching p0. -/
def sDiff2 : DomainStatus := { sDiff with vpcOptions := some ⟨["subnet-1"], ["sg-1"]⟩ }

/-- The matching status s0 with one provider-side key in the EBS block
that is outside the desired schema. -/
def sExtra : DomainStatus :=
  { s0 with ebsOptions := ⟨ebs_options p0, [("SomeNewOption", "x")]⟩ }

/-- Statement list without a Resource key. -/
def stmts4 : List Stmt := [{ resource := none, rest := "allow-all" }]

/-- Access policy whose only statement has no Resource key. -/
def pol4 : Policy := { statement := some stmts4, rest := "2012-10-17" }

/-- The parameters p0 with the resource-less policy pol4. -/
def p4 : Params := { p0 with access_policies := pol4 }

/-- The matching status for p4: its returned policy carries the Resource
the provider auto-populates, while the desired policy pol4 does not. -/
def s4 : DomainStatus :=
  { s0 with accessPolicies := normalizedPolicy arn0 pol4 stmts4 }

/-- The parameters p0 with an access policy on which json.dumps fails. -/
def pBad : Params :=
  { p0 with access_policies_serializable := false, access_policies_dump_error := "TypeError" }

/-- The parameters p0 with an access policy lacking the top-level
Statement key. -/
def pNoStmt : Params :=
  { p0 with access_policies := { statement := none, rest := "2012-10-17" } }

/-- Whole-dict inequality holds as soon as the returned block has a key
outside the desired schema. -/
theorem dictNe_of_extra {α : Type} [DecidableEq α] {w : WithExtra α} (d : α)
    (h : w.extra ≠ []) : dictNe w d = true := by
  unfold dictNe
  simp only [decide_eq_true_eq]
  intro hc
  exact h hc.2

/-- The non-VPC comparison reports a difference as soon as one returned
block has a key outside the desired schema. -/
theorem blockDiffs_extra (p : Params) (status : DomainStatus) (pol : Policy)
    (hx : status.elasticsearchClusterConfig.extra ≠ [] ∨ status.ebsOptions.extra ≠ [] ∨
        status.cognitoOptions.extra ≠ [] ∨ status.snapshotOptions.extra ≠ []) :
    blockDiffs p status pol = true := by
  unfold blockDiffs
  rcases hx with hx | hx | hx | hx
  · simp [dictNe_of_extra (cluster_config p) hx]
  · simp [dictNe_of_extra (ebs_options p) hx]
  · simp [dictNe_of_extra (cognito_options p) hx]
  · simp [dictNe_of_extra (snapshot_options p) hx]

/-- When one returned block has a key outside the desired schema and the
comparison completes, it reports a difference. -/
theorem compareState_extra (p : Params) (status : DomainStatus) (pol : Policy) (c : Bool)
    (hx : status.elasticsearchClusterConfig.extra ≠ [] ∨ status.ebsOptions.extra ≠ [] ∨
        status.cognitoOptions.extra ≠ [] ∨ status.snapshotOptions.extra ≠ [])
    (h : compareState p status pol = .ok c) : c = true := by
  have hbd := blockDiffs_extra p status pol hx
  unfold compareState at h
  cases hv : status.vpcOptions with
  | none =>
    rw [hv] at h
    simp only [hbd, Bool.true_or] at h
    cases h
    rfl
  | some vs =>
    rw [hv] at h
    dsimp only at h
    cases hvc : vpcCompare vs (vpc_options p) with
    | keyError k =>
      rw [hvc] at h
      simp at h
    | ok c4 =>
      rw [hvc] at h
      simp only [hbd, Bool.true_or, CmpResult.ok.injEq] at h
      exact h.symm

/-- For an existing domain whose returned state equals the desired
configuration in every compared block, the invocation exits with
changed = false after issuing only the initial and the final describe
calls. -/
theorem exit_unchanged_of_match (p : Params) (status : DomainStatus) (stmts : List Stmt)
    (hser : p.access_policies_serializable = true)
    (hst : p.access_policies.statement = some stmts)
    (hcc : status.elasticsearchClusterConfig = ⟨cluster_config p, []⟩)
    (hebs : status.ebsOptions = ⟨ebs_options p, []⟩)
    (hcog : status.cognitoOptions = ⟨cognito_options p, []⟩)
    (hvpc : ∀ vs, status.vpcOptions = some vs →
        (vpc_options p).subnetIds = some vs.subnetIds ∧
        (vpc_options p).securityGroupIds = some vs.securityGroupIds)
    (hsnap : status.snapshotOptions = ⟨snapshot_options p, []⟩)
    (hpol : status.accessPolicies = normalizedPolicy status.arn p.access_policies stmts) :
    run p (.ok status) =
      { outcome := .exited false, calls := [.describe p.name, .describe p.name] } := by
  have hbd : blockDiffs p status (normalizedPolicy status.arn p.access_policies stmts) = false := by
    simp [blockDiffs, dictNe, hcc, hebs, hcog, hsnap, hpol]
  have hcmp : compareState p status (normalizedPolicy status.arn p.access_policies stmts) = .ok false := by
    unfold compareState
    cases hv : status.vpcOptions with
    | none => simp [hbd]
    | some vs =>
      obtain ⟨h1, h2⟩ := hvpc vs hv
      unfold vpcCompare
      rw [h1, h2]
      simp [hbd]
  simp [run, hser, runExisting, hst, hcmp]

/-- C1: for every invocation where the domain read succeeds and the
current remote state equals the desired configuration in every compared
block (cluster config, EBS options, Cognito options, VPC options when
present, snapshot options, and parsed access policy), the module reports
changed = false and issues no update or create call (the only calls are
the initial and the final describe). -/
theorem c1_no_diff_no_write (p : Params) (status : DomainStatus) (stmts : List Stmt)
    (hser : p.access_policies_serializable = true)
    (hst : p.access_policies.statement = some stmts)
    (hcc : status.elasticsearchClusterConfig = ⟨cluster_config p, []⟩)
    (hebs : status.ebsOptions = ⟨ebs_options p, []⟩)
    (hcog : status.cognitoOptions = ⟨cognito_options p, []⟩)
    (hvpc : ∀ vs, status.vpcOptions = some vs →
        (vpc_options p).subnetIds = some vs.subnetIds ∧
        (vpc_options p).securityGroupIds = some vs.securityGroupIds)
    (hsnap : status.snapshotOptions = ⟨snapshot_options p, []⟩)
    (hpol : status.accessPolicies = normalizedPolicy status.arn p.access_policies stmts) :
    run p (.ok status) =
      { outcome := .exited false, calls := [.describe p.name, .describe p.name] } :=
  exit_unchanged_of_match p status stmts hser hst hcc hebs hcog hvpc hsnap hpol

/-- Witness for C1: a concrete matching invocation reports changed =
false with only the two describe calls. -/
theorem c1_no_diff_no_write_witness :
    run p0 (.ok s0) =
      { outcome := .exited false, calls := [.describe p0.name, .describe p0.name] } :=
  c1_no_diff_no_write p0 s0 stmts0 rfl rfl rfl rfl rfl
    (fun vs h => by cases h; exact ⟨rfl, rfl⟩) rfl rfl

/-- Counterexample to C2 as stated: on a concrete invocation whose read
succeeds and whose current state differs from the desired configuration
in the EBS volume size, but whose vpc_subnets parameter is empty, the
module does not report changed = true and issues no update call: it
aborts with an unhandled KeyError on SubnetIds in the write guard. -/
theorem c2_counterexample :
    dictNe sDiff.ebsOptions (ebs_options pNoVpc) = true ∧
    run pNoVpc (.ok sDiff) =
      { outcome := .keyError "SubnetIds", calls := [.describe "es-test"] } := by
  constructor
  · decide
  · decide

/-- C2 amended: for every invocation where the domain read succeeds, the
comparison phase completes and detects a difference in at least one
compared field, and the vpc_subnets parameter is non-empty (so that the
write guard does not raise a KeyError), the module reports changed =
true and issues exactly one update call carrying the full desired
configuration (cluster config, EBS options, snapshot options, access
policy, Cognito options). -/
theorem c2_diff_one_update (p : Params) (status : DomainStatus) (stmts : List Stmt)
    (hser : p.access_policies_serializable = true)
    (hst : p.access_policies.statement = some stmts)
    (hdiff : compareState p status (normalizedPolicy status.arn p.access_policies stmts) = .ok true)
    (hvpc : p.vpc_subnets ≠ []) :
    run p (.ok status) =
      { outcome := .exited true
        calls := [.describe p.name,
                  .update (update_keyword_args p
                    (normalizedPolicy status.arn p.access_policies stmts) true),
                  .describe p.name] } := by
  have hg : vpcGuard (vpc_options p) = .ok true := by
    unfold vpcGuard vpc_options
    simp [hvpc]
  simp [run, hser, runExisting, hst, hdiff, hg]

/-- Witness for C2 amended: a concrete invocation differing only in the
EBS volume size reports changed = true with exactly one update call
carrying the full desired configuration. -/
theorem c2_diff_one_update_witness :
    run p0 (.ok sDiff2) =
      { outcome := .exited true
        calls := [.describe p0.name,
                  .update (update_keyword_args p0
                    (normalizedPolicy sDiff2.arn p0.access_policies stmts0) true),
                  .describe p0.name] } :=
  c2_diff_one_update p0 sDiff2 stmts0 rfl rfl (by decide) (by decide)

/-- Counterexample to C3 as stated: on a concrete invocation whose read
fails with ResourceNotFoundException but whose vpc_subnets parameter is
empty, the module issues no create call and reports nothing: it aborts
with an unhandled KeyError on SubnetIds in the write guard. -/
theorem c3_counterexample :
    run pNoVpc (.err "ResourceNotFoundException" "Domain not found") =
      { outcome := .keyError "SubnetIds", calls := [.describe "es-test"] } := by
  decide

/-- C3 amended: for every invocation where the read fails with a
provider error of code ResourceNotFoundException and the vpc_subnets
parameter is non-empty (so that the write guard does not raise a
KeyError), the module takes the create path, issuing one create call
with the full desired configuration including the encryption-at-rest
options, and reports changed = true. -/
theorem c3_create_on_missing (p : Params) (message : String)
    (hser : p.access_policies_serializable = true)
    (hvpc : p.vpc_subnets ≠ []) :
    run p (.err "ResourceNotFoundException" message) =
      { outcome := .exited true
        calls := [.describe p.name,
                  .create (create_keyword_args p p.access_policies true),
                  .describe p.name] } := by
  have hg : vpcGuard (vpc_options p) = .ok true := by
    unfold vpcGuard vpc_options
    simp [hvpc]
  simp [run, hser, runMissing, hg]

/-- Witness for C3 amended: a concrete not-found read leads to one
create call, whose arguments include the encryption-at-rest options, and
changed = true. -/
theorem c3_create_on_missing_witness :
    run p0 (.err "ResourceNotFoundException" "Domain not found") =
      { outcome := .exited true
        calls := [.describe p0.name,
                  .create (create_keyword_args p0 p0.access_policies true),
                  .describe p0.name] } :=
  c3_create_on_missing p0 "Domain not found" rfl (by decide)

/-- C4: on an existing domain, every desired policy statement lacking a
Resource key is populated with the domain ARN suffixed by /* before the
comparison, so that a desired policy lacking a resource qualifier,
compared against a current policy whose resource the provider
auto-populated (here: equal to the normalized desired policy), does not
by itself set changed = true: with all other compared blocks equal the
invocation reports changed = false. -/
theorem c4_policy_normalization (p : Params) (status : DomainStatus) (stmts : List Stmt)
    (hser : p.access_policies_serializable = true)
    (hst : p.access_policies.statement = some stmts)
    (hmissing : ∃ s ∈ stmts, s.resource = none)
    (hcc : status.elasticsearchClusterConfig = ⟨cluster_config p, []⟩)
    (hebs : status.ebsOptions = ⟨ebs_options p, []⟩)
    (hcog : status.cognitoOptions = ⟨cognito_options p, []⟩)
    (hvpc : ∀ vs, status.vpcOptions = some vs →
        (vpc_options p).subnetIds = some vs.subnetIds ∧
        (vpc_options p).securityGroupIds = some vs.securityGroupIds)
    (hsnap : status.snapshotOptions = ⟨snapshot_options p, []⟩)
    (hpol : status.accessPolicies = normalizedPolicy status.arn p.access_policies stmts) :
    (∀ s ∈ stmts, s.resource = none →
        normalizeStmt status.arn s = { s with resource := some (status.arn ++ "/*") }) ∧
    (run p (.ok status)).outcome = .exited false := by
  constructor
  · intro s _ hs
    simp [normalizeStmt, hs]
  · rw [exit_unchanged_of_match p status stmts hser hst hcc hebs hcog hvpc hsnap hpol]

/-- Witness for C4: a concrete desired policy whose statement has no
Resource key, against a current policy carrying the auto-populated ARN,
yields changed = false. -/
theorem c4_policy_normalization_witness :
    (run p4 (.ok s4)).outcome = .exited false :=
  (c4_policy_normalization p4 s4 stmts4 rfl rfl ⟨{ resource := none, rest := "allow-all" }, by decide⟩
    rfl rfl rfl (fun vs h => by cases h; exact ⟨rfl, rfl⟩) rfl rfl).2

/-- C5: for every invocation where the read fails with a provider error
whose code is not ResourceNotFoundException, the module fails fatally
with a message carrying the original code and message, and issues no
create or update call (the only call is the initial describe). -/
theorem c5_other_error_fatal (p : Params) (code message : String)
    (hser : p.access_policies_serializable = true)
    (hcode : code ≠ "ResourceNotFoundException") :
    run p (.err code message) =
      { outcome := .failed ("Error: " ++ code ++ " " ++ message)
        calls := [.describe p.name] } := by
  simp [run, hser, runMissing, hcode]

/-- Witness for C5: a concrete ValidationException read failure is fatal
with the code and message preserved and no write call. -/
theorem c5_other_error_fatal_witness :
    run p0 (.err "ValidationException" "Bad input") =
      { outcome := .failed ("Error: " ++ "ValidationException" ++ " " ++ "Bad input")
        calls := [.describe p0.name] } :=
  c5_other_error_fatal p0 "ValidationException" "Bad input" rfl (by decide)

/-- Counterexample to C6 as stated: on a concrete invocation whose
returned EBS block agrees with the desired one on every shared field but
carries one additional provider key, the whole-dict comparison reports a
difference and the module exits with changed = true, so an additional
field absent from the desired shape does cause changed = true. -/
theorem c6_counterexample :
    sExtra.ebsOptions.base = ebs_options p0 ∧
    sExtra.ebsOptions.extra = [("SomeNewOption", "x")] ∧
    dictNe sExtra.elasticsearchClusterConfig (cluster_config p0) = false ∧
    dictNe sExtra.cognitoOptions (cognito_options p0) = false ∧
    dictNe sExtra.snapshotOptions (snapshot_options p0) = false ∧
    (run p0 (.ok sExtra)).outcome = .exited true := by
  decide

/-- C6 amended: under the whole-object equality comparison of the nested
option blocks, an additional field present in a compared block of the
current remote state (cluster config, EBS, Cognito or snapshot options)
always makes the comparison report a difference: no invocation on such a
state can report changed = false. -/
theorem c6_extra_field_is_diff (p : Params) (status : DomainStatus)
    (hx : status.elasticsearchClusterConfig.extra ≠ [] ∨ status.ebsOptions.extra ≠ [] ∨
        status.cognitoOptions.extra ≠ [] ∨ status.snapshotOptions.extra ≠ []) :
    (run p (.ok status)).outcome ≠ Outcome.exited false := by
  intro hout
  cases hser : p.access_policies_serializable with
  | false => simp [run, hser] at hout
  | true =>
    simp only [run, hser, if_true] at hout
    cases hst : p.access_policies.statement with
    | none => simp [runExisting, hst] at hout
    | some stmts =>
      simp only [runExisting, hst] at hout
      cases hcmp : compareState p status (normalizedPolicy status.arn p.access_policies stmts) with
      | keyError k => simp [hcmp] at hout
      | ok changed =>
        have hch := compareState_extra p status _ changed hx hcmp
        cases hg : vpcGuard (vpc_options p) with
        | keyError k => simp [hcmp, hch, hg] at hout
        | ok inc => simp [hcmp, hch, hg] at hout

/-- Witness for C6 amended: the concrete run on a state with one extra
EBS key cannot exit with changed = false. -/
theorem c6_extra_field_is_diff_witness :
    (run p0 (.ok sExtra)).outcome ≠ Outcome.exited false :=
  c6_extra_field_is_diff p0 sExtra (by decide)

/-- C7: encryption-at-rest options appear only on the create path.
Every create call carries the encryption-at-rest options built from the
parameters, and the whole result of an invocation on an existing domain
(comparisons, changed flag, update call) is unchanged under any change
of the two encryption parameters; the update keyword arguments contain
no encryption field at all. -/
theorem c7_encryption_create_only :
    (∀ (p : Params) (read : ReadResult) (args : CreateArgs),
        ApiCall.create args ∈ (run p read).calls →
        args.encryptionAtRestOptions = encryption_at_rest_options p) ∧
    (∀ (p : Params) (e : Bool) (k : Option String) (status : DomainStatus),
        run (setEncryption p e k) (.ok status) = run p (.ok status)) := by
  constructor
  · intro p read args hmem
    cases hser : p.access_policies_serializable with
    | false => simp [run, hser] at hmem
    | true =>
      cases read with
      | ok status =>
        exfalso
        simp only [run, hser, if_true] at hmem
        cases hst : p.access_policies.statement with
        | none => simp [runExisting, hst] at hmem
        | some stmts =>
          simp only [runExisting, hst] at hmem
          cases hcmp : compareState p status (normalizedPolicy status.arn p.access_policies stmts) with
          | keyError k => simp [hcmp] at hmem
          | ok changed =>
            cases changed with
            | false => simp [hcmp] at hmem
            | true =>
              cases hg : vpcGuard (vpc_options p) with
              | keyError k => simp [hcmp, hg] at hmem
              | ok inc => simp [hcmp, hg] at hmem
      | err code message =>
        by_cases hcode : code = "ResourceNotFoundException"
        · subst hcode
          simp only [run, hser, if_true] at hmem
          cases hg : vpcGuard (vpc_options p) with
          | keyError k => simp [runMissing, hg] at hmem
          | ok inc =>
            simp [runMissing, hg] at hmem
            subst hmem
            rfl
        · simp [run, hser, runMissing, hcode] at hmem
  · intro p e k status
    rfl

/-- Witness for C7: on a concrete not-found invocation the one create
call carries exactly the encryption-at-rest options built from the
parameters. -/
theorem c7_encryption_create_only_witness :
    (create_keyword_args p0 p0.access_policies true).encryptionAtRestOptions =
      encryption_at_rest_options p0 :=
  c7_encryption_create_only.1 p0 (.err "ResourceNotFoundException" "Domain not found")
    (create_keyword_args p0 p0.access_policies true) (by decide)

/-- C8: for every invocation whose access-policy parameter cannot be
serialized to JSON, the module fails fatally with the configuration
error message before any provider API call (no describe, create or
update call is issued), whatever the read would have returned. -/
theorem c8_unserializable_policy_fatal (p : Params) (read : ReadResult)
    (h : p.access_policies_serializable = false) :
    run p read =
      { outcome := .failed ("Failed to convert the policy into valid JSON: " ++
          p.access_policies_dump_error)
        calls := [] } := by
  simp [run, h]

/-- Witness for C8: a concrete unserializable policy fails fatally with
no provider call at all. -/
theorem c8_unserializable_policy_fatal_witness :
    run pBad (.ok s0) =
      { outcome := .failed ("Failed to convert the policy into valid JSON: " ++
          pBad.access_policies_dump_error)
        calls := [] } :=
  c8_unserializable_policy_fatal pBad (.ok s0) rfl

/-- C9: for every invocation whose vpc_subnets parameter is absent or
empty, any attempt to issue a write call aborts with an unhandled
KeyError on SubnetIds instead of completing the write: on the update
branch when the comparison detects a difference, and on the create
branch when the domain does not exist. -/
theorem c9_write_guard_keyerror (p : Params) (hvpc : p.vpc_subnets = []) :
    (∀ (status : DomainStatus) (stmts : List Stmt),
        p.access_policies_serializable = true →
        p.access_policies.statement = some stmts →
        compareState p status (normalizedPolicy status.arn p.access_policies stmts) = .ok true →
        run p (.ok status) =
          { outcome := .keyError "SubnetIds", calls := [.describe p.name] }) ∧
    (∀ message : String,
        p.access_policies_serializable = true →
        run p (.err "ResourceNotFoundException" message) =
          { outcome := .keyError "SubnetIds", calls := [.describe p.name] }) := by
  have hg : vpcGuard (vpc_options p) = .keyError "SubnetIds" := by
    unfold vpcGuard vpc_options
    simp [hvpc]
  constructor
  · intro status stmts hser hst hdiff
    simp [run, hser, runExisting, hst, hdiff, hg]
  · intro message hser
    simp [run, hser, runMissing, hg]

/-- Witness for C9: with empty VPC lists, both a differing existing
domain and a missing domain end in the SubnetIds KeyError with no write
call. -/
theorem c9_write_guard_keyerror_witness :
    run pNoVpc (.ok sDiff) =
      { outcome := .keyError "SubnetIds", calls := [.describe pNoVpc.name] } ∧
    run pNoVpc (.err "ResourceNotFoundException" "Domain not found") =
      { outcome := .keyError "SubnetIds", calls := [.describe pNoVpc.name] } :=
  ⟨(c9_write_guard_keyerror pNoVpc rfl).1 sDiff stmts0 rfl rfl (by decide),
   (c9_write_guard_keyerror pNoVpc rfl).2 "Domain not found" rfl⟩

/-- C10: for every invocation on an existing domain whose access-policy
parameter lacks the top-level Statement key, the normalization loop
aborts with an unhandled KeyError on Statement: no diff is reported and
no configuration error is raised. -/
theorem c10_missing_statement_keyerror (p : Params) (status : DomainStatus)
    (hser : p.access_policies_serializable = true)
    (hst : p.access_policies.statement = none) :
    run p (.ok status) =
      { outcome := .keyError "Statement", calls := [.describe p.name] } := by
  simp [run, hser, runExisting, hst]

/-- Witness for C10: a concrete policy without a Statement key aborts
with the Statement KeyError on an existing domain. -/
theorem c10_missing_statement_keyerror_witness :
    run pNoStmt (.ok s0) =
      { outcome := .keyError "Statement", calls := [.describe pNoStmt.name] } :=
  c10_missing_statement_keyerror pNoStmt s0 rfl rfl

end ES
